import Mathlib

/-!
# Module bootstrap shim (`sliver/sliver.c`)

A shallow embedding of the three platform variants of the shim:

* `Win32.Enjoy`, `Win32.DllMain`  (the `#ifdef __WIN32` branch),
* `Linux.init`                    (the `#elif __linux__` branch),
* `Apple.init`                    (the `#elif __APPLE__` branch).

The C functions are written in a small state-and-outcome monad `M`.  Two things
are external to the file and are therefore parameters of every definition:

* the agent routine `RunSliver` (declared, never defined, in `sliver.c`), and
* the answer of the operating system to a `CreateThread` request.

The world keeps the ordered list of external calls made by the code that is
being executed, the threads that were created and whose body has not been
executed, and the state owned by the agent routine.
-/

namespace Sliver

/-! ## C types -/

/-- A 32-bit unsigned `DWORD`; only compared for equality in this file. -/
abbrev DWORD := Nat
/-- A Win32 `HANDLE`; the value `NULL` is the failure answer of `CreateThread`. -/
abbrev HANDLE := Nat
/-- A Win32 untyped pointer `LPVOID`. -/
abbrev LPVOID := Nat
/-- A Win32 module handle `HINSTANCE`. -/
abbrev HINSTANCE := Nat
/-- A Win32 `BOOL` (a C `int`). -/
abbrev BOOL := Int
/-- A failure of the agent routine, as an uninterpreted code. -/
abbrev Fault := Nat

/-- The C null pointer constant. -/
def NULL : Nat := 0

/-- The functions that `sliver.c` defines or declares; a value of this type is
the address of one of them. -/
inductive Fn where
  | Enjoy
  | DllMain
  | RunSliver
  | init
  deriving DecidableEq, Repr

/-- Constants that `sliver.c` takes from the platform header pulled in by
`sliver.h`, which is not part of the sources: the four reason codes and the
`BOOL` value `TRUE`.  The labels of one C `switch` are pairwise different
(C11 6.8.4.2p3); `labels_nodup` records this in the order of the source. -/
structure WinHeader where
  DLL_PROCESS_ATTACH : DWORD
  DLL_PROCESS_DETACH : DWORD
  DLL_THREAD_DETACH : DWORD
  DLL_THREAD_ATTACH : DWORD
  TRUE : BOOL
  labels_nodup :
    [DLL_PROCESS_ATTACH, DLL_PROCESS_DETACH, DLL_THREAD_DETACH, DLL_THREAD_ATTACH].Nodup

/-- The values of the Windows SDK headers, as one instance of `WinHeader`. -/
def winnt : WinHeader where
  DLL_PROCESS_ATTACH := 1
  DLL_PROCESS_DETACH := 0
  DLL_THREAD_DETACH := 3
  DLL_THREAD_ATTACH := 2
  TRUE := 1
  labels_nodup := by decide

/-! ## Worlds, outcomes and the execution monad -/

/-- An external call made by the code being executed. -/
inductive Event where
  | CreateThread (lpThreadAttributes : LPVOID) (dwStackSize : Nat) (lpStartAddress : Fn)
      (lpParameter : LPVOID) (dwCreationFlags : DWORD) (lpThreadId : LPVOID)
  | RunSliver
  deriving DecidableEq, Repr

/-- Recognises a thread-creation request. -/
def Event.isCreateThread : Event → Bool
  | .CreateThread _ _ _ _ _ _ => true
  | .RunSliver => false

/-- A thread that the operating system created and whose body has not been
executed. -/
structure Thread where
  handle : HANDLE
  start : Fn
  param : LPVOID
  deriving DecidableEq, Repr

/-- The observable state: `calls` lists the external calls made so far, oldest
first; `pending` lists the created threads whose body has not been executed;
`agent` is the state owned by the agent routine. -/
structure World (σ : Type) where
  calls : List Event
  pending : List Thread
  agent : σ

/-- What one execution of the external agent routine does to its own state:
it returns, it fails with a fault, or it never returns. -/
inductive AgentResult (σ : Type) where
  | ret (s : σ)
  | fail (e : Fault) (s : σ)
  | hang

/-- The environment of the shim: the agent routine and the answer of the
operating system to a thread-creation request made in a given world (`NULL`
when the request fails). -/
structure Env (σ : Type) where
  RunSliver : σ → AgentResult σ
  createThread : World σ → HANDLE

/-- The outcome of executing a C function: it returns a value, it is left by a
failure, or control never comes back.  Each case carries the world reached. -/
inductive Outcome (σ α : Type) where
  | ret (a : α) (w : World σ)
  | fail (e : Fault) (w : World σ)
  | hang (w : World σ)

/-- The world reached by an outcome. -/
def Outcome.world {σ α : Type} : Outcome σ α → World σ
  | .ret _ w => w
  | .fail _ w => w
  | .hang w => w

/-- Computations over a world. -/
def M (σ α : Type) : Type := World σ → Outcome σ α

/-- A computation that returns `a` and leaves the world alone. -/
def M.pure {σ α : Type} (a : α) : M σ α := fun w => Outcome.ret a w

/-- Sequencing: the second computation runs only when the first one returns. -/
def M.bind {σ α β : Type} (m : M σ α) (f : α → M σ β) : M σ β := fun w =>
  match m w with
  | .ret a w1 => f a w1
  | .fail e w1 => .fail e w1
  | .hang w1 => .hang w1

instance (σ : Type) : Monad (M σ) where
  pure := M.pure
  bind := M.bind

/-- Number of invocations of the agent routine recorded in a world. -/
def agentCalls {σ : Type} (w : World σ) : Nat := w.calls.count Event.RunSliver

/-- Number of thread-creation requests recorded in a world. -/
def threadRequests {σ : Type} (w : World σ) : Nat := w.calls.countP Event.isCreateThread

/-! ## External routines -/

/-- A call of the external agent routine `RunSliver()`: the call is recorded,
then the agent acts on its own state. When it never returns, the world is the
one at the moment of the call. -/
def RunSliver {σ : Type} (env : Env σ) : M σ Unit := fun w =>
  let w1 : World σ := { w with calls := w.calls ++ [Event.RunSliver] }
  match env.RunSliver w.agent with
  | .ret s => .ret () { w1 with agent := s }
  | .fail e s => .fail e { w1 with agent := s }
  | .hang => .hang w1

namespace Win32

/-- A call of the Win32 routine `CreateThread`: the request is recorded; when
the operating system answers with a handle other than `NULL`, a thread with the
requested start routine and parameter exists from then on. The handle is the
return value. The call returns at once in both cases. -/
def CreateThread {σ : Type} (env : Env σ) (lpThreadAttributes : LPVOID) (dwStackSize : Nat)
    (lpStartAddress : Fn) (lpParameter : LPVOID) (dwCreationFlags : DWORD)
    (lpThreadId : LPVOID) : M σ HANDLE := fun w =>
  let w1 : World σ :=
    { w with calls := w.calls ++ [Event.CreateThread lpThreadAttributes dwStackSize
        lpStartAddress lpParameter dwCreationFlags lpThreadId] }
  let h := env.createThread w
  if h = NULL then .ret NULL w1
  else .ret h { w1 with pending := w1.pending ++ [⟨h, lpStartAddress, lpParameter⟩] }

/-! ## The `__WIN32` branch -/

/-- The thread body: `RunSliver(); return 0;`. -/
def Enjoy {σ : Type} (env : Env σ) : M σ DWORD := do
  RunSliver env
  return 0

/-- The attach handler. The `switch` has four labels and no `default`; every
path leaves the `switch` and reaches `return TRUE;`. -/
def DllMain {σ : Type} (k : WinHeader) (env : Env σ) (_hinstDLL : HINSTANCE)
    (_fdwReason : DWORD) (_lpReserved : LPVOID) : M σ BOOL := do
  if _fdwReason = k.DLL_PROCESS_ATTACH then
    let _hThread ← CreateThread env NULL 0 Fn.Enjoy NULL 0 NULL
    pure ()
  else if _fdwReason = k.DLL_PROCESS_DETACH then
    pure ()
  else if _fdwReason = k.DLL_THREAD_DETACH then
    pure ()
  else if _fdwReason = k.DLL_THREAD_ATTACH then
    pure ()
  else
    pure ()
  return k.TRUE

end Win32

/-! ## The `__linux__` branch -/

namespace Linux

/-- The function stored in `.init_array`: `RunSliver();`. -/
def init {σ : Type} (env : Env σ) (_argc : Int) (_argv : List String) (_envp : List String) :
    M σ Unit := do
  RunSliver env

end Linux

/-! ## The `__APPLE__` branch -/

namespace Apple

/-- The constructor function: `RunSliver();`. -/
def init {σ : Type} (env : Env σ) (_argc : Int) (_argv : List String) (_envp : List String) :
    M σ Unit := do
  RunSliver env

end Apple

/-! ## Successive invocations -/

/-- Successive direct invocations of an entry point `f`, one for each argument
of the list, in order; the next invocation is made when the previous one has
returned, and its return value is dropped. -/
def callEach {σ α β : Type} (f : α → M σ β) : List α → M σ Unit
  | [] => pure ()
  | a :: rest => do
    let _ ← f a
    callEach f rest

/-! ## Concrete environments used to exercise the theorems -/

/-- A stand-in agent that increments a counter and returns. -/
def counterAgent : Nat → AgentResult Nat := fun n => .ret (n + 1)

/-- A stand-in agent that fails with fault 7 and leaves the counter alone. -/
def failingAgent : Nat → AgentResult Nat := fun n => .fail 7 n

/-- A stand-in agent that never returns. -/
def hangingAgent : Nat → AgentResult Nat := fun _ => .hang

/-- Counter agent, thread creation succeeds with handle 44. -/
def envOk : Env Nat := ⟨counterAgent, fun _ => 44⟩

/-- Counter agent, thread creation fails. -/
def envNoThread : Env Nat := ⟨counterAgent, fun _ => NULL⟩

/-- Failing agent, thread creation succeeds. -/
def envFail : Env Nat := ⟨failingAgent, fun _ => 44⟩

/-- Hanging agent, thread creation succeeds. -/
def envHang : Env Nat := ⟨hangingAgent, fun _ => 44⟩

/-- A world in which nothing has happened. -/
def world0 : World Nat := ⟨[], [], 0⟩

/-! ## Evaluation lemmas for the execution monad -/

theorem pure_run {σ α : Type} (a : α) (w : World σ) :
    (pure a : M σ α) w = Outcome.ret a w := rfl

theorem bind_run {σ α β : Type} (m : M σ α) (f : α → M σ β) (w : World σ) :
    (m >>= f) w = M.bind m f w := rfl

theorem bind_ret {σ α β : Type} (m : M σ α) (f : α → M σ β) (w w1 : World σ) (a : α)
    (h : m w = Outcome.ret a w1) : M.bind m f w = f a w1 := by
  simp [M.bind, h]

theorem RunSliver_world {σ : Type} (env : Env σ) (w : World σ) :
    (RunSliver env w).world.calls = w.calls ++ [Event.RunSliver]
      ∧ (RunSliver env w).world.pending = w.pending := by
  unfold RunSliver
  cases h : env.RunSliver w.agent <;> simp [Outcome.world]

theorem agentCalls_snoc_RunSliver {σ : Type} (w w1 : World σ)
    (h : w1.calls = w.calls ++ [Event.RunSliver]) : agentCalls w1 = agentCalls w + 1 := by
  simp [agentCalls, h]

theorem threadRequests_snoc_RunSliver {σ : Type} (w w1 : World σ)
    (h : w1.calls = w.calls ++ [Event.RunSliver]) : threadRequests w1 = threadRequests w := by
  simp [threadRequests, h, Event.isCreateThread]

theorem CreateThread_run {σ : Type} (env : Env σ) (a : LPVOID) (n : Nat) (f : Fn) (p : LPVOID)
    (fl : DWORD) (t : LPVOID) (w : World σ) :
    Win32.CreateThread env a n f p fl t w =
      Outcome.ret (env.createThread w)
        ⟨w.calls ++ [Event.CreateThread a n f p fl t],
         if env.createThread w = NULL then w.pending
         else w.pending ++ [⟨env.createThread w, f, p⟩],
         w.agent⟩ := by
  unfold Win32.CreateThread
  by_cases h : env.createThread w = NULL <;> simp [h]

theorem DllMain_attach_run {σ : Type} (k : WinHeader) (env : Env σ) (h : HINSTANCE) (p : LPVOID)
    (w : World σ) :
    Win32.DllMain k env h k.DLL_PROCESS_ATTACH p w =
      Outcome.ret k.TRUE
        ⟨w.calls ++ [Event.CreateThread NULL 0 Fn.Enjoy NULL 0 NULL],
         if env.createThread w = NULL then w.pending
         else w.pending ++ [⟨env.createThread w, Fn.Enjoy, NULL⟩],
         w.agent⟩ := by
  simp [Win32.DllMain, bind_run, M.bind, CreateThread_run, pure_run]

theorem DllMain_other_run {σ : Type} (k : WinHeader) (env : Env σ) (h : HINSTANCE) (r : DWORD)
    (p : LPVOID) (w : World σ) (hr : r ≠ k.DLL_PROCESS_ATTACH) :
    Win32.DllMain k env h r p w = Outcome.ret k.TRUE w := by
  unfold Win32.DllMain
  rw [if_neg hr]
  split_ifs <;> rfl

theorem init_run {σ : Type} (env : Env σ) (argc : Int) (argv envp : List String) :
    Linux.init env argc argv envp = RunSliver env := rfl

theorem RunSliver_ret {σ : Type} (env : Env σ) (w : World σ) (s : σ)
    (h : env.RunSliver w.agent = AgentResult.ret s) :
    RunSliver env w = Outcome.ret () ⟨w.calls ++ [Event.RunSliver], w.pending, s⟩ := by
  simp [RunSliver, h]

theorem RunSliver_fail {σ : Type} (env : Env σ) (w : World σ) (e : Fault) (s : σ)
    (h : env.RunSliver w.agent = AgentResult.fail e s) :
    RunSliver env w = Outcome.fail e ⟨w.calls ++ [Event.RunSliver], w.pending, s⟩ := by
  simp [RunSliver, h]

theorem RunSliver_hang {σ : Type} (env : Env σ) (w : World σ)
    (h : env.RunSliver w.agent = AgentResult.hang) :
    RunSliver env w = Outcome.hang ⟨w.calls ++ [Event.RunSliver], w.pending, w.agent⟩ := by
  simp [RunSliver, h]

theorem RunSliver_ret_inv {σ : Type} (env : Env σ) (w w1 : World σ)
    (h : RunSliver env w = Outcome.ret () w1) :
    env.RunSliver w.agent = AgentResult.ret w1.agent
      ∧ w1.calls = w.calls ++ [Event.RunSliver] ∧ w1.pending = w.pending := by
  unfold RunSliver at h
  cases hr : env.RunSliver w.agent <;> rw [hr] at h <;> simp at h
  subst h
  exact ⟨rfl, rfl, rfl⟩

theorem callEach_cons {σ α β : Type} (f : α → M σ β) (a : α) (rest : List α) (w : World σ) :
    callEach f (a :: rest) w = M.bind (f a) (fun _ => callEach f rest) w := rfl

theorem callEach_count {σ α β : Type} (f : α → M σ β) (c : World σ → Nat)
    (hstep : ∀ a w b w1, f a w = Outcome.ret b w1 → c w1 = c w + 1) :
    ∀ (l : List α) (w w1 : World σ),
      callEach f l w = Outcome.ret () w1 → c w1 = c w + l.length := by
  intro l
  induction l with
  | nil =>
    intro w w1 h
    have hw : w = w1 := by
      simpa [callEach, pure_run] using h
    simp [hw]
  | cons a rest ih =>
    intro w w1 h
    rw [callEach_cons] at h
    unfold M.bind at h
    cases hf : f a w with
    | ret b w2 =>
      rw [hf] at h
      have h1 := hstep a w b w2 hf
      have h2 := ih w2 w1 h
      simp only [List.length_cons]
      omega
    | fail e w2 => rw [hf] at h; simp at h
    | hang w2 => rw [hf] at h; simp at h

theorem callEach_returns {σ α β : Type} (f : α → M σ β)
    (hret : ∀ a w, ∃ b w1, f a w = Outcome.ret b w1) :
    ∀ (l : List α) (w : World σ), ∃ w1, callEach f l w = Outcome.ret () w1 := by
  intro l
  induction l with
  | nil => intro w; exact ⟨w, rfl⟩
  | cons a rest ih =>
    intro w
    obtain ⟨b, w2, hf⟩ := hret a w
    obtain ⟨w1, h1⟩ := ih w2
    refine ⟨w1, ?_⟩
    rw [callEach_cons, bind_ret (f a) _ w w2 b hf, h1]

/-! ## The Windows attach handler -/

/-- C1: for every module handle and reserved pointer, `DllMain` called with
reason `DLL_PROCESS_ATTACH` returns `TRUE`; the calls it makes are exactly one
`CreateThread` request whose start routine is `Enjoy` (so it makes no call of
`RunSliver` and no other call, in particular none that waits); at the return
the agent state is untouched and the created thread, when the request
succeeded, is still pending with its body unexecuted. -/
theorem DllMain_process_attach {σ : Type} (k : WinHeader) (env : Env σ) (hinstDLL : HINSTANCE)
    (lpReserved : LPVOID) (w : World σ) :
    ∃ w1 : World σ,
      Win32.DllMain k env hinstDLL k.DLL_PROCESS_ATTACH lpReserved w = Outcome.ret k.TRUE w1
        ∧ w1.calls = w.calls ++ [Event.CreateThread NULL 0 Fn.Enjoy NULL 0 NULL]
        ∧ threadRequests w1 = threadRequests w + 1
        ∧ agentCalls w1 = agentCalls w
        ∧ w1.agent = w.agent
        ∧ w1.pending =
            if env.createThread w = NULL then w.pending
            else w.pending ++ [⟨env.createThread w, Fn.Enjoy, NULL⟩] := by
  refine ⟨_, DllMain_attach_run k env hinstDLL lpReserved w, rfl, ?_, ?_, rfl, rfl⟩
  · simp [threadRequests, Event.isCreateThread]
  · simp [agentCalls]

/-- C2: a call of `DllMain` whose reason is `DLL_PROCESS_DETACH`,
`DLL_THREAD_ATTACH` or `DLL_THREAD_DETACH` returns `TRUE` in the world it was
called in: no thread-creation request, no invocation of the agent routine, and
the calls, the pending threads and the agent state are the ones before. -/
theorem DllMain_inert_reasons {σ : Type} (k : WinHeader) (env : Env σ) (hinstDLL : HINSTANCE)
    (fdwReason : DWORD) (lpReserved : LPVOID) (w : World σ)
    (hr : fdwReason = k.DLL_PROCESS_DETACH ∨ fdwReason = k.DLL_THREAD_ATTACH
      ∨ fdwReason = k.DLL_THREAD_DETACH) :
    Win32.DllMain k env hinstDLL fdwReason lpReserved w = Outcome.ret k.TRUE w
      ∧ threadRequests (Win32.DllMain k env hinstDLL fdwReason lpReserved w).world
          = threadRequests w
      ∧ agentCalls (Win32.DllMain k env hinstDLL fdwReason lpReserved w).world = agentCalls w
      ∧ (Win32.DllMain k env hinstDLL fdwReason lpReserved w).world.pending = w.pending := by
  have hne : fdwReason ≠ k.DLL_PROCESS_ATTACH := by
    have hd := k.labels_nodup
    simp only [List.nodup_cons, List.mem_cons, List.mem_singleton, not_or] at hd
    obtain ⟨⟨h1, h2, h3, _⟩, _⟩ := hd
    rcases hr with h | h | h
    · rw [h]; exact fun e => h1 e.symm
    · rw [h]; exact fun e => h3 e.symm
    · rw [h]; exact fun e => h2 e.symm
  have hrun := DllMain_other_run k env hinstDLL fdwReason lpReserved w hne
  rw [hrun]
  exact ⟨rfl, rfl, rfl, rfl⟩

/-- Witness of C2: process-detach with the SDK constants. -/
theorem DllMain_inert_reasons_witness :
    (0 = winnt.DLL_PROCESS_DETACH ∨ 0 = winnt.DLL_THREAD_ATTACH ∨ 0 = winnt.DLL_THREAD_DETACH)
      ∧ Win32.DllMain winnt envOk 5 0 9 world0 = Outcome.ret 1 world0 :=
  ⟨Or.inl rfl, (DllMain_inert_reasons winnt envOk 5 0 9 world0 (Or.inl rfl)).1⟩

/-- C3: when `DllMain` is called with `DLL_PROCESS_ATTACH` and the
thread-creation request fails (the answer is `NULL`), `DllMain` still returns
`TRUE` (a normal return, no failure surfaces); the world differs from the one
before only by the recorded request: no thread exists that would execute
`Enjoy`, no call of `RunSliver` was made, and the agent state is untouched. -/
theorem DllMain_thread_creation_fails {σ : Type} (k : WinHeader) (env : Env σ)
    (hinstDLL : HINSTANCE) (lpReserved : LPVOID) (w : World σ)
    (hfail : env.createThread w = NULL) :
    Win32.DllMain k env hinstDLL k.DLL_PROCESS_ATTACH lpReserved w =
        Outcome.ret k.TRUE
          ⟨w.calls ++ [Event.CreateThread NULL 0 Fn.Enjoy NULL 0 NULL], w.pending, w.agent⟩
      ∧ (Win32.DllMain k env hinstDLL k.DLL_PROCESS_ATTACH lpReserved w).world.pending
          = w.pending
      ∧ agentCalls (Win32.DllMain k env hinstDLL k.DLL_PROCESS_ATTACH lpReserved w).world
          = agentCalls w
      ∧ (Win32.DllMain k env hinstDLL k.DLL_PROCESS_ATTACH lpReserved w).world.agent
          = w.agent := by
  have hrun := DllMain_attach_run k env hinstDLL lpReserved w
  rw [hfail] at hrun
  simp only [if_true] at hrun
  rw [hrun]
  refine ⟨rfl, rfl, ?_, rfl⟩
  simp [Outcome.world, agentCalls]

/-- Witness of C3: the environment whose thread creation fails. -/
theorem DllMain_thread_creation_fails_witness :
    envNoThread.createThread world0 = NULL
      ∧ Win32.DllMain winnt envNoThread 5 1 9 world0 =
          Outcome.ret 1 ⟨[Event.CreateThread 0 0 Fn.Enjoy 0 0 0], [], 0⟩ :=
  ⟨rfl, (DllMain_thread_creation_fails winnt envNoThread 5 9 world0 rfl).1⟩

/-- C9: one execution of `Enjoy` makes exactly one call, which is the call of
`RunSliver`, whatever the agent does; when the agent returns, `Enjoy` returns
the exit value 0 and the world differs only by that call and by what the agent
did to its own state. -/
theorem Enjoy_runs_agent_once {σ : Type} (env : Env σ) (w : World σ) :
    (Win32.Enjoy env w).world.calls = w.calls ++ [Event.RunSliver]
      ∧ agentCalls (Win32.Enjoy env w).world = agentCalls w + 1
      ∧ threadRequests (Win32.Enjoy env w).world = threadRequests w
      ∧ (Win32.Enjoy env w).world.pending = w.pending
      ∧ ∀ s : σ, env.RunSliver w.agent = AgentResult.ret s →
          Win32.Enjoy env w = Outcome.ret 0 ⟨w.calls ++ [Event.RunSliver], w.pending, s⟩ := by
  have hcalls : (Win32.Enjoy env w).world.calls = w.calls ++ [Event.RunSliver]
      ∧ (Win32.Enjoy env w).world.pending = w.pending := by
    simp only [Win32.Enjoy, bind_run, M.bind, RunSliver]
    cases h : env.RunSliver w.agent <;> simp [Outcome.world, pure_run]
  refine ⟨hcalls.1, agentCalls_snoc_RunSliver _ _ hcalls.1,
    threadRequests_snoc_RunSliver _ _ hcalls.1, hcalls.2, ?_⟩
  intro s hs
  simp [Win32.Enjoy, bind_run, M.bind, RunSliver, hs, pure_run]

/-- Witness of C9: the counter agent. -/
theorem Enjoy_runs_agent_once_witness :
    envOk.RunSliver world0.agent = AgentResult.ret 1
      ∧ Win32.Enjoy envOk world0 = Outcome.ret 0 ⟨[Event.RunSliver], [], 1⟩ :=
  ⟨rfl, (Enjoy_runs_agent_once envOk world0).2.2.2.2 1 rfl⟩

/-- C10: for every reason code (the four named ones or any other value), module
handle, reserved pointer and answer to the thread-creation request, `DllMain`
returns `TRUE`; for a reason other than `DLL_PROCESS_ATTACH` it returns in the
world it was called in (no request, no call); and as a function it does not
depend on the module handle or on the reserved pointer. -/
theorem DllMain_total {σ : Type} (k : WinHeader) (env : Env σ) (hinstDLL : HINSTANCE)
    (fdwReason : DWORD) (lpReserved : LPVOID) (w : World σ) :
    (∃ w1 : World σ,
        Win32.DllMain k env hinstDLL fdwReason lpReserved w = Outcome.ret k.TRUE w1)
      ∧ (fdwReason ≠ k.DLL_PROCESS_ATTACH →
          Win32.DllMain k env hinstDLL fdwReason lpReserved w = Outcome.ret k.TRUE w)
      ∧ (∀ (hinstDLL2 : HINSTANCE) (lpReserved2 : LPVOID),
          Win32.DllMain k env hinstDLL2 fdwReason lpReserved2
            = Win32.DllMain k env hinstDLL fdwReason lpReserved) := by
  refine ⟨?_, DllMain_other_run k env hinstDLL fdwReason lpReserved w, fun _ _ => rfl⟩
  by_cases hr : fdwReason = k.DLL_PROCESS_ATTACH
  · subst hr
    exact ⟨_, DllMain_attach_run k env hinstDLL lpReserved w⟩
  · exact ⟨w, DllMain_other_run k env hinstDLL fdwReason lpReserved w hr⟩

/-- Witness of C10: a reason code that is none of the four named ones. -/
theorem DllMain_total_witness :
    (77 : DWORD) ≠ winnt.DLL_PROCESS_ATTACH
      ∧ Win32.DllMain winnt envOk 5 77 9 world0 = Outcome.ret 1 world0 :=
  ⟨by decide, (DllMain_total winnt envOk 5 77 9 world0).2.1 (by decide)⟩

/-! ## The POSIX variants -/

/-- C4: for every argument count, argument vector and environment vector, one
direct call of the ELF function `init` makes exactly one call, the call of
`RunSliver`, whatever the agent does; the call is synchronous (when `init` has
returned, the agent has returned and the agent state is the one it left, and
`init` does return when the agent does); and `init` is the same computation
for all argument values. -/
theorem init_elf_once_synchronous {σ : Type} (env : Env σ) (argc : Int)
    (argv envp : List String) (w : World σ) :
    (Linux.init env argc argv envp w).world.calls = w.calls ++ [Event.RunSliver]
      ∧ agentCalls (Linux.init env argc argv envp w).world = agentCalls w + 1
      ∧ (∀ w1 : World σ, Linux.init env argc argv envp w = Outcome.ret () w1 →
          env.RunSliver w.agent = AgentResult.ret w1.agent)
      ∧ (∀ s : σ, env.RunSliver w.agent = AgentResult.ret s →
          Linux.init env argc argv envp w
            = Outcome.ret () ⟨w.calls ++ [Event.RunSliver], w.pending, s⟩)
      ∧ (∀ (argc2 : Int) (argv2 envp2 : List String),
          Linux.init env argc2 argv2 envp2 = Linux.init env argc argv envp) := by
  rw [init_run]
  have hc := (RunSliver_world env w).1
  exact ⟨hc, agentCalls_snoc_RunSliver _ _ hc,
    fun w1 h => (RunSliver_ret_inv env w w1 h).1,
    fun s h => RunSliver_ret env w s h, fun _ _ _ => rfl⟩

/-- Witness of C4: the counter agent reaches 1 by the time `init` returns. -/
theorem init_elf_once_synchronous_witness :
    envOk.RunSliver world0.agent = AgentResult.ret 1
      ∧ Linux.init envOk 2 ["host", "x"] ["HOME=/"] world0
          = Outcome.ret () ⟨[Event.RunSliver], [], 1⟩ :=
  ⟨rfl, (init_elf_once_synchronous envOk 2 ["host", "x"] ["HOME=/"] world0).2.2.2.1 1 rfl⟩

/-- C5: no guard state. Successive direct invocations of `init`, one for each
element of a list of argument triples, invoke the agent routine once for each
element: whenever the whole sequence returns, the number of agent invocations
has grown by the length of the list, and the sequence does return for an agent
that always returns. Successive calls of `DllMain` with `DLL_PROCESS_ATTACH`
always return and issue one thread-creation request for each call. -/
theorem repeated_trigger_no_guard {σ : Type} (k : WinHeader) (env : Env σ) :
    (∀ (l : List (Int × List String × List String)) (w w1 : World σ),
        callEach (fun a => Linux.init env a.1 a.2.1 a.2.2) l w = Outcome.ret () w1 →
          agentCalls w1 = agentCalls w + l.length)
      ∧ ((∀ s : σ, ∃ s1 : σ, env.RunSliver s = AgentResult.ret s1) →
          ∀ (l : List (Int × List String × List String)) (w : World σ), ∃ w1 : World σ,
            callEach (fun a => Linux.init env a.1 a.2.1 a.2.2) l w = Outcome.ret () w1
              ∧ agentCalls w1 = agentCalls w + l.length)
      ∧ (∀ (l : List (HINSTANCE × LPVOID)) (w : World σ), ∃ w1 : World σ,
          callEach (fun a => Win32.DllMain k env a.1 k.DLL_PROCESS_ATTACH a.2) l w
              = Outcome.ret () w1
            ∧ threadRequests w1 = threadRequests w + l.length) := by
  have hstep : ∀ (a : Int × List String × List String) (w : World σ) (b : Unit) (w1 : World σ),
      Linux.init env a.1 a.2.1 a.2.2 w = Outcome.ret b w1 → agentCalls w1 = agentCalls w + 1 := by
    intro a w b w1 h
    exact agentCalls_snoc_RunSliver _ _ (RunSliver_ret_inv env w w1 h).2.1
  have hcount := callEach_count (fun a : Int × List String × List String =>
    Linux.init env a.1 a.2.1 a.2.2) agentCalls hstep
  refine ⟨hcount, ?_, ?_⟩
  · intro htot l w
    have hret : ∀ (a : Int × List String × List String) (w : World σ), ∃ (b : Unit) (w1 : World σ),
        Linux.init env a.1 a.2.1 a.2.2 w = Outcome.ret b w1 := by
      intro a w
      obtain ⟨s1, hs⟩ := htot w.agent
      exact ⟨(), _, RunSliver_ret env w s1 hs⟩
    obtain ⟨w1, h1⟩ := callEach_returns _ hret l w
    exact ⟨w1, h1, hcount l w w1 h1⟩
  · intro l w
    have hret : ∀ (a : HINSTANCE × LPVOID) (w : World σ), ∃ (b : BOOL) (w1 : World σ),
        Win32.DllMain k env a.1 k.DLL_PROCESS_ATTACH a.2 w = Outcome.ret b w1 :=
      fun a w => ⟨_, _, DllMain_attach_run k env a.1 a.2 w⟩
    have hstep2 : ∀ (a : HINSTANCE × LPVOID) (w : World σ) (b : BOOL) (w1 : World σ),
        Win32.DllMain k env a.1 k.DLL_PROCESS_ATTACH a.2 w = Outcome.ret b w1 →
          threadRequests w1 = threadRequests w + 1 := by
      intro a w b w1 h
      rw [DllMain_attach_run] at h
      injection h with _ hw
      subst hw
      simp [threadRequests, Event.isCreateThread]
    obtain ⟨w1, h1⟩ := callEach_returns _ hret l w
    exact ⟨w1, h1, callEach_count _ threadRequests hstep2 l w w1 h1⟩

/-- Witness of C5: three invocations of `init` with the counter agent. -/
theorem repeated_trigger_no_guard_witness :
    (∀ s : Nat, ∃ s1 : Nat, envOk.RunSliver s = AgentResult.ret s1)
      ∧ ∃ w1 : World Nat,
          callEach (fun a => Linux.init envOk a.1 a.2.1 a.2.2)
              [(0, [], []), (1, ["a"], []), (2, ["a", "b"], ["E=1"])] world0
            = Outcome.ret () w1
          ∧ agentCalls w1 = agentCalls world0 + 3 :=
  ⟨fun s => ⟨s + 1, rfl⟩,
    (repeated_trigger_no_guard winnt envOk).2.1 (fun s => ⟨s + 1, rfl⟩)
      [(0, [], []), (1, ["a"], []), (2, ["a", "b"], ["E=1"])] world0⟩

/-- C6: `init` (ELF and Mach-O) neither catches nor alters the outcome of the
agent routine: when `RunSliver` fails, `init` fails with the same fault; when
`RunSliver` never returns, neither does `init`; when `RunSliver` returns,
`init` returns, and in each case the world differs only by the recorded call
and by what the agent did to its own state. -/
theorem init_propagates_agent_outcome {σ : Type} (env : Env σ) (argc : Int)
    (argv envp : List String) (w : World σ) :
    (∀ (e : Fault) (s : σ), env.RunSliver w.agent = AgentResult.fail e s →
        Linux.init env argc argv envp w
            = Outcome.fail e ⟨w.calls ++ [Event.RunSliver], w.pending, s⟩
          ∧ Apple.init env argc argv envp w
            = Outcome.fail e ⟨w.calls ++ [Event.RunSliver], w.pending, s⟩)
      ∧ (env.RunSliver w.agent = AgentResult.hang →
        Linux.init env argc argv envp w
            = Outcome.hang ⟨w.calls ++ [Event.RunSliver], w.pending, w.agent⟩
          ∧ Apple.init env argc argv envp w
            = Outcome.hang ⟨w.calls ++ [Event.RunSliver], w.pending, w.agent⟩)
      ∧ (∀ s : σ, env.RunSliver w.agent = AgentResult.ret s →
        Linux.init env argc argv envp w
            = Outcome.ret () ⟨w.calls ++ [Event.RunSliver], w.pending, s⟩
          ∧ Apple.init env argc argv envp w
            = Outcome.ret () ⟨w.calls ++ [Event.RunSliver], w.pending, s⟩) :=
  ⟨fun e s h => ⟨RunSliver_fail env w e s h, RunSliver_fail env w e s h⟩,
    fun h => ⟨RunSliver_hang env w h, RunSliver_hang env w h⟩,
    fun s h => ⟨RunSliver_ret env w s h, RunSliver_ret env w s h⟩⟩

/-- Witness of C6: a failing agent, a hanging agent and a returning agent. -/
theorem init_propagates_agent_outcome_witness :
    (envFail.RunSliver world0.agent = AgentResult.fail 7 0
        ∧ Linux.init envFail 1 ["host"] [] world0 = Outcome.fail 7 ⟨[Event.RunSliver], [], 0⟩)
      ∧ (envHang.RunSliver world0.agent = AgentResult.hang
        ∧ Apple.init envHang 1 ["host"] [] world0 = Outcome.hang ⟨[Event.RunSliver], [], 0⟩)
      ∧ (envOk.RunSliver world0.agent = AgentResult.ret 1
        ∧ Linux.init envOk 1 ["host"] [] world0 = Outcome.ret () ⟨[Event.RunSliver], [], 1⟩) :=
  ⟨⟨rfl, ((init_propagates_agent_outcome envFail 1 ["host"] [] world0).1 7 0 rfl).1⟩,
    ⟨rfl, ((init_propagates_agent_outcome envHang 1 ["host"] [] world0).2.1 rfl).2⟩,
    ⟨rfl, ((init_propagates_agent_outcome envOk 1 ["host"] [] world0).2.2 1 rfl).1⟩⟩

/-- C7: for every argument count, argument vector and environment vector, the
Mach-O constructor `init` is the same computation as the ELF function `init`:
equal outcome in every world and for every agent (return, failure or
non-return alike), one recorded invocation of `RunSliver`, and no dependence
on the arguments. -/
theorem init_macho_eq_init_elf {σ : Type} (env : Env σ) (argc : Int) (argv envp : List String)
    (w : World σ) :
    Apple.init env argc argv envp w = Linux.init env argc argv envp w
      ∧ agentCalls (Apple.init env argc argv envp w).world = agentCalls w + 1
      ∧ (∀ (argc2 : Int) (argv2 envp2 : List String),
          Apple.init env argc2 argv2 envp2 = Linux.init env argc argv envp) :=
  ⟨rfl, agentCalls_snoc_RunSliver _ _ (RunSliver_world env w).1, fun _ _ _ => rfl⟩

end Sliver
